import Mathlib

/-!
Verification development for the `selftest` manager module
(`src/mgr/selftest/module.py`).

The module's shared mutable state is `self._workload : Option String` and
`self._event : threading.Event` (a boolean signal).  We embed that state,
the `handle_command` control surface, the `shutdown` hook, and the
`serve` / `_command_spam` coordinator loop as pure Lean functions.

External collaborators (the host mgr API: config store, osdmap, remote
calls, command submission) are passed in as an `Env` record of abstract
outcomes, since their code lives outside this module.  Python exceptions
are modelled with `Except PyExc`.

The coordinator thread is modelled as a small-step function `serve_step`
over a system state `Sys` that carries a program counter (`Loc`) for the
`serve` loop and the inner `_command_spam` loop, together with
instrumentation counters (`spamCount` = commands submitted, `inflight` =
commands submitted but not yet awaited).  Control-surface calls and the
coordinator interleave via `sysStep`.
-/

namespace Selftest

/-- Python exception kinds used by the module.  `importError` models
`ImportError` (raised by `self.remote` for unavailable modules),
`nameError` models `NameError` (missing method), `assertionError`
models `AssertionError` from a failed `assert`. -/
inductive PyExc where
  | assertionError : PyExc
  | importError : PyExc
  | nameError : PyExc
  | runtimeError : String → PyExc
  | otherExc : String → PyExc
deriving DecidableEq, Repr

/-- Source constant `WORKLOAD_COMMAND_SPAM = "command_spam"` (module.py line 22). -/
def WORKLOAD_COMMAND_SPAM : String := "command_spam"

/-- Source constant `WORKLOAD_THROW_EXCEPTION = "throw_exception"` (module.py line 23). -/
def WORKLOAD_THROW_EXCEPTION : String := "throw_exception"

/-- Source constant `SHUTDOWN = "shutdown"` (module.py line 24). -/
def SHUTDOWN : String := "shutdown"

/-- Source constant `WORKLOADS = (WORKLOAD_COMMAND_SPAM, WORKLOAD_THROW_EXCEPTION)`
(module.py line 26). -/
def WORKLOADS : List String := [WORKLOAD_COMMAND_SPAM, WORKLOAD_THROW_EXCEPTION]

/-- Outcomes of the external collaborator calls the module makes.  Each
field is the result of the corresponding block of host-API calls: `.ok ()`
means the calls returned, `.error e` means one of them raised `e`.
`configAfterSet k v` is the value `get_config k` returns right after
`set_config k v` (`none` = Python `None`); likewise for the localized
variant.  `getConfig` / `getLocalizedConfig` are the plain reads used by
the `config get` commands.  The `remote*` fields are the outcomes of the
four `self.remote` calls in `_test_remote_calls`. -/
structure Env where
  selfTestOsdmap : Except PyExc Unit
  selfTestGetters : Except PyExc Unit
  selfTestStore : Except PyExc Unit
  selfTestMisc : Except PyExc Unit
  selfTestPerfCounters : Except PyExc Unit
  configAfterSet : String → String → Option String
  localizedConfigAfterSet : String → String → Option String
  getConfig : String → Option String
  getLocalizedConfig : String → Option String
  remoteValid : Except PyExc Unit
  remoteDisabled : Except PyExc Unit
  remoteNonexistent : Except PyExc Unit
  remoteMissingMethod : Except PyExc Unit

/-- Python `str(x)` for a value that is either a string or `None`:
`str(None) = "None"`, `str(s) = s` for a string `s`. -/
def pyStr : Option String → String
  | some v => v
  | none => "None"

/-- Python truthiness of `self._workload` (`if self._workload:`):
`None` and the empty string are falsy. -/
def pyTruthy : Option String → Bool
  | none => false
  | some s => !(s == "")

/-- A bare Python `assert b`: raises `AssertionError` when `b` is false. -/
def pyAssert (b : Bool) : Except PyExc Unit :=
  if b then .ok () else .error .assertionError

/-- Sequencing of two Python statements: if the first raises, the
exception propagates and the second never runs. -/
def seqE (a b : Except PyExc Unit) : Except PyExc Unit :=
  match a with
  | .error e => .error e
  | .ok _ => b

/-- A Python `try: r except E: pass else: raise RuntimeError(failMsg)`
block: the expected exception kind is swallowed, other exceptions
propagate, and no exception at all becomes a `RuntimeError`. -/
def expectExc (r : Except PyExc Unit) (want : PyExc) (failMsg : String) :
    Except PyExc Unit :=
  match r with
  | .error e => if e = want then .ok () else .error e
  | .ok _ => .error (.runtimeError failMsg)

/-- Embedding of `Module._self_test_config` (module.py lines 159-167): sets and reads
back `testkey` through the plain and localized config collaborators,
asserting each round trip. -/
def _self_test_config (env : Env) : Except PyExc Unit :=
  seqE (pyAssert (env.configAfterSet "testkey" "testvalue" == some "testvalue"))
    (pyAssert (env.localizedConfigAfterSet "testkey" "testvalue" == some "testvalue"))

/-- Embedding of `Module._self_test` (module.py lines 108-116): runs the six sub-test
blocks in source order; the first exception aborts the sequence. -/
def _self_test (env : Env) : Except PyExc Unit :=
  seqE env.selfTestOsdmap
    (seqE env.selfTestGetters
      (seqE (_self_test_config env)
        (seqE env.selfTestStore
          (seqE env.selfTestMisc env.selfTestPerfCounters))))

/-- Embedding of `Module._test_remote_calls` (module.py lines 218-248): one valid
remote call, then three calls that must fail with `ImportError`,
`ImportError` and `NameError` respectively; a missing expected failure
raises `RuntimeError` with the messages from the source. -/
def _test_remote_calls (env : Env) : Except PyExc Unit :=
  seqE env.remoteValid
    (seqE (expectExc env.remoteDisabled .importError
        "ImportError not raised for disabled module")
      (seqE (expectExc env.remoteNonexistent .importError
          "ImportError not raised for nonexistent module")
        (expectExc env.remoteMissingMethod .nameError "KeyError not raised")))

/-- Program counter of the coordinator thread: `top` = top of the
`serve` loop; `spamCheck` = inside `_command_spam`, about to test
`self._event.is_set()`; `spamAwait` = a reweight command has been
submitted and `result.wait()` has not yet returned. -/
inductive Loc where
  | top : Loc
  | spamCheck : Loc
  | spamAwait : Loc
deriving DecidableEq, Repr

/-- Whether the coordinator thread is still running, has exited `serve`
cleanly (the `SHUTDOWN` break), or has crashed with the uncaught
`RuntimeError` of the `throw_exception` workload. -/
inductive RunStatus where
  | running : RunStatus
  | exited : RunStatus
  | crashed : RunStatus
deriving DecidableEq, Repr

/-- Whole-system state: the two shared fields `_workload` and `_event`
of the module, the coordinator's program counter and liveness, and two
instrumentation counters: `spamCount` counts commands submitted by
`_command_spam`, `inflight` counts commands submitted but not yet
awaited. -/
structure Sys where
  workload : Option String
  event : Bool
  loc : Loc
  status : RunStatus
  spamCount : Nat
  inflight : Nat
deriving DecidableEq, Repr

/-- A primitive mutation of the shared state performed by the control
surface: an assignment to `self._workload`, or `self._event.set()`. -/
inductive MutAct where
  | writeWorkload : Option String → MutAct
  | signalEvent : MutAct
deriving DecidableEq, Repr

/-- Effect of one primitive mutation on the shared state. -/
def applyMut (s : Sys) : MutAct → Sys
  | .writeWorkload v => { s with workload := v }
  | .signalEvent => { s with event := true }

/-- Result triple `(retcode, outb, outs)` returned by `handle_command`. -/
structure CmdResult where
  retcode : Int
  outb : String
  outs : String
deriving DecidableEq, Repr

/-- The value of `errno.EINVAL`. -/
def EINVAL : Int := 22

/-- An administrative command: the dict `command` with its `prefix` key
(field renamed `cmdPrefix`, `prefix` being reserved in Lean) and the
argument keys the module reads (`workload` for background start, `key`
for the config get commands). -/
structure Command where
  cmdPrefix : String
  workload : String
  key : String
deriving DecidableEq, Repr

/-- Embedding of `Module.handle_command` (module.py lines 75-106).  Returns the
result triple and the trace of primitive mutations of the shared state
performed by the branch, in source statement order; the state after the
call is that trace folded over the state before it (see `ctrlApply`).
Branches that call collaborators propagate their exceptions via
`.error` (those branches mutate nothing). -/
def handle_command (env : Env) (cmd : Command) (s : Sys) :
    Except PyExc (CmdResult × List MutAct) :=
  if cmd.cmdPrefix = "mgr self-test run" then
    match _self_test env with
    | .error e => .error e
    | .ok _ => .ok (⟨0, "", "Self-test succeeded"⟩, [])
  else if cmd.cmdPrefix = "mgr self-test background start" then
    if cmd.workload ∈ WORKLOADS then
      .ok (⟨0, "", "Running `" ++ cmd.workload ++ "` in background"⟩,
        [.writeWorkload (some cmd.workload), .signalEvent])
    else
      .ok (⟨-EINVAL, "", "Workload not found '" ++ cmd.workload ++ "'"⟩, [])
  else if cmd.cmdPrefix = "mgr self-test background stop" then
    if pyTruthy s.workload then
      let was_running := pyStr s.workload
      .ok (⟨0, "", "Stopping background workload `" ++ was_running ++ "`"⟩,
        [.writeWorkload none, .signalEvent])
    else
      .ok (⟨0, "", "No background workload was running"⟩, [])
  else if cmd.cmdPrefix = "mgr self-test config get" then
    .ok (⟨0, pyStr (env.getConfig cmd.key), ""⟩, [])
  else if cmd.cmdPrefix = "mgr self-test config get_localized" then
    .ok (⟨0, pyStr (env.getLocalizedConfig cmd.key), ""⟩, [])
  else if cmd.cmdPrefix = "mgr self-test remote" then
    match _test_remote_calls env with
    | .error e => .error e
    | .ok _ => .ok (⟨0, "", "Successfully called"⟩, [])
  else
    .ok (⟨-EINVAL, "", "Command not found '" ++ cmd.cmdPrefix ++ "'"⟩, [])

/-- The mutation trace of `Module.shutdown` (module.py lines 251-253):
`self._workload = self.SHUTDOWN` then `self._event.set()`. -/
def shutdownTrace : List MutAct :=
  [.writeWorkload (some SHUTDOWN), .signalEvent]

/-- Embedding of `Module.shutdown` as a state transformer. -/
def shutdown (s : Sys) : Sys :=
  shutdownTrace.foldl applyMut s

/-- One small step of the coordinator thread (`Module.serve`, module.py
lines 277-289, and the body `Module._command_spam`, lines 255-275).

At `top` the `serve` loop dispatches on `self._workload`; the
`command_spam` branch enters the body (next step is the body's
`while not self._event.is_set()` test), `shutdown` breaks out of the
loop, `throw_exception` raises `RuntimeError` which nothing catches, and
the `else` branch waits on the event (a no-op step while the event is
clear) and clears it on wake.  At `spamCheck`, a set event exits the
body, clearing the event on the way out; otherwise one inner iteration
submits a reweight command (`send_command`).  At `spamAwait` the
`result.wait()` call returns and control goes back to the loop test.
Once the thread has exited or crashed there are no further steps. -/
def serve_step (s : Sys) : Sys :=
  match s.status with
  | .exited => s
  | .crashed => s
  | .running =>
    match s.loc with
    | .top =>
      if s.workload = some WORKLOAD_COMMAND_SPAM then
        { s with loc := .spamCheck }
      else if s.workload = some SHUTDOWN then
        { s with status := .exited }
      else if s.workload = some WORKLOAD_THROW_EXCEPTION then
        { s with status := .crashed }
      else
        if s.event then { s with event := false } else s
    | .spamCheck =>
      if s.event then { s with event := false, loc := .top }
      else { s with spamCount := s.spamCount + 1, inflight := s.inflight + 1,
                    loc := .spamAwait }
    | .spamAwait =>
      { s with inflight := s.inflight - 1, loc := .spamCheck }

/-- An interleaving event: one coordinator step, one control-surface
command, or the host calling `Module.shutdown`. -/
inductive Act where
  | coord : Act
  | ctrl : Command → Act
  | shutdownCall : Act

/-- Effect of a control-surface command on the shared state: the
mutation trace of the taken branch applied in order (the result triple
goes back to the caller; a raised exception leaves the state as the
branch left it, and the raising branches mutate nothing). -/
def ctrlApply (env : Env) (cmd : Command) (s : Sys) : Sys :=
  match handle_command env cmd s with
  | .ok (_, tr) => tr.foldl applyMut s
  | .error _ => s

/-- One interleaving step of the whole system. -/
def sysStep (env : Env) (s : Sys) : Act → Sys
  | .coord => serve_step s
  | .ctrl cmd => ctrlApply env cmd s
  | .shutdownCall => shutdown s

/-- Run a finite interleaving of system events. -/
def sysRun (env : Env) (s : Sys) (acts : List Act) : Sys :=
  acts.foldl (sysStep env) s

/-- Initial state of the module (`__init__`, module.py lines 70-73):
no workload, event clear, coordinator at the top of `serve`. -/
def initSys : Sys :=
  ⟨none, false, .top, .running, 0, 0⟩

/-- A well-behaved environment: every collaborator call returns, the
config round trips hold, and the three deliberately bad remote calls
raise exactly the exceptions the self-test expects. -/
def envOk : Env where
  selfTestOsdmap := .ok ()
  selfTestGetters := .ok ()
  selfTestStore := .ok ()
  selfTestMisc := .ok ()
  selfTestPerfCounters := .ok ()
  configAfterSet := fun _ v => some v
  localizedConfigAfterSet := fun _ v => some v
  getConfig := fun _ => some "testvalue"
  getLocalizedConfig := fun _ => some "testvalue"
  remoteValid := .ok ()
  remoteDisabled := .error .importError
  remoteNonexistent := .error .importError
  remoteMissingMethod := .error .nameError

/-- The invariant tying the in-flight command count to the coordinator's
program counter: exactly one command is outstanding while blocked in
`result.wait()`, none otherwise. -/
def spamInv (s : Sys) : Prop :=
  s.inflight = if s.loc = .spamAwait then 1 else 0

instance (s : Sys) : Decidable (spamInv s) := by
  unfold spamInv; infer_instance

/-- Primitive mutations touch only `workload` and `event`. -/
lemma applyMut_coord_fields (s : Sys) (m : MutAct) :
    (applyMut s m).loc = s.loc ∧ (applyMut s m).status = s.status ∧
    (applyMut s m).spamCount = s.spamCount ∧ (applyMut s m).inflight = s.inflight := by
  cases m <;> simp [applyMut]

/-- Folded mutation traces touch only `workload` and `event`. -/
lemma foldl_applyMut_coord_fields (tr : List MutAct) :
    ∀ s : Sys, ((tr.foldl applyMut s).loc = s.loc ∧
      (tr.foldl applyMut s).status = s.status ∧
      (tr.foldl applyMut s).spamCount = s.spamCount ∧
      (tr.foldl applyMut s).inflight = s.inflight) := by
  induction tr with
  | nil => intro s; exact ⟨rfl, rfl, rfl, rfl⟩
  | cons m rest ih =>
    intro s
    have h1 := applyMut_coord_fields s m
    have h2 := ih (applyMut s m)
    simp only [List.foldl_cons]
    exact ⟨h2.1.trans h1.1, h2.2.1.trans h1.2.1,
      h2.2.2.1.trans h1.2.2.1, h2.2.2.2.trans h1.2.2.2⟩

/-- The control surface touches only `workload` and `event`: the
coordinator's program counter, liveness and counters are unchanged by
any `handle_command` invocation. -/
lemma ctrlApply_coord_fields (env : Env) (cmd : Command) (s : Sys) :
    (ctrlApply env cmd s).loc = s.loc ∧ (ctrlApply env cmd s).status = s.status ∧
    (ctrlApply env cmd s).spamCount = s.spamCount ∧
    (ctrlApply env cmd s).inflight = s.inflight := by
  unfold ctrlApply
  split
  · exact foldl_applyMut_coord_fields _ s
  · exact ⟨rfl, rfl, rfl, rfl⟩

/-- The `shutdown` hook likewise touches only `workload` and `event`. -/
lemma shutdown_coord_fields (s : Sys) :
    (shutdown s).loc = s.loc ∧ (shutdown s).status = s.status ∧
    (shutdown s).spamCount = s.spamCount ∧ (shutdown s).inflight = s.inflight := by
  exact ⟨rfl, rfl, rfl, rfl⟩

/-- A coordinator thread that has exited or crashed takes no further
steps. -/
lemma serve_step_frozen (s : Sys) (h : s.status ≠ .running) :
    serve_step s = s := by
  unfold serve_step
  cases hst : s.status with
  | running => exact absurd hst h
  | exited => rfl
  | crashed => rfl

/-- Once the coordinator has exited or crashed, no interleaving of
system events revives it or lets any workload run: its status and the
count of submitted commands are frozen forever. -/
lemma sysRun_frozen (env : Env) (acts : List Act) :
    ∀ s : Sys, s.status ≠ .running →
      (sysRun env s acts).status = s.status ∧
      (sysRun env s acts).spamCount = s.spamCount := by
  induction acts with
  | nil => intro s _; exact ⟨rfl, rfl⟩
  | cons a rest ih =>
    intro s h
    have hstep : (sysStep env s a).status = s.status ∧
        (sysStep env s a).spamCount = s.spamCount := by
      cases a with
      | coord => rw [show sysStep env s .coord = serve_step s from rfl,
          serve_step_frozen s h]; exact ⟨rfl, rfl⟩
      | ctrl cmd => exact ⟨(ctrlApply_coord_fields env cmd s).2.1,
          (ctrlApply_coord_fields env cmd s).2.2.1⟩
      | shutdownCall => exact ⟨(shutdown_coord_fields s).2.1,
          (shutdown_coord_fields s).2.2.1⟩
    have hne : (sysStep env s a).status ≠ .running := by
      rw [hstep.1]; exact h
    have hrest := ih (sysStep env s a) hne
    refine ⟨?_, ?_⟩
    · exact hrest.1.trans hstep.1
    · exact hrest.2.trans hstep.2

/-- One system step preserves the in-flight invariant. -/
lemma sysStep_spamInv (env : Env) (s : Sys) (a : Act) (h : spamInv s) :
    spamInv (sysStep env s a) := by
  cases a with
  | coord =>
    show spamInv (serve_step s)
    obtain ⟨w, ev, loc, st, sc, fl⟩ := s
    unfold spamInv at h ⊢
    cases st <;> cases loc <;>
      simp_all [serve_step] <;> (repeat' split) <;> simp_all
  | ctrl cmd =>
    have hc := ctrlApply_coord_fields env cmd s
    show spamInv (ctrlApply env cmd s)
    unfold spamInv at h ⊢
    rw [hc.1, hc.2.2.2, h]
  | shutdownCall =>
    have hc := shutdown_coord_fields s
    show spamInv (shutdown s)
    unfold spamInv at h ⊢
    rw [hc.1, hc.2.2.2, h]

/-- Any interleaving of system events preserves the in-flight
invariant. -/
lemma sysRun_spamInv (env : Env) (acts : List Act) :
    ∀ s : Sys, spamInv s → spamInv (sysRun env s acts) := by
  induction acts with
  | nil => intro s h; exact h
  | cons a rest ih =>
    intro s h
    exact ih (sysStep env s a) (sysStep_spamInv env s a h)

/-- Case analysis of the mutation traces `handle_command` can return:
nothing, a stop (write `None` then signal), or a start of a registered
workload (write it then signal). -/
lemma handle_command_trace_cases (env : Env) (cmd : Command) (s : Sys)
    (r : CmdResult) (tr : List MutAct)
    (h : handle_command env cmd s = .ok (r, tr)) :
    tr = [] ∨ tr = [.writeWorkload none, .signalEvent] ∨
      (∃ w, w ∈ WORKLOADS ∧ tr = [.writeWorkload (some w), .signalEvent]) := by
  unfold handle_command at h
  repeat' split at h
  all_goals simp only [Except.ok.injEq, Prod.mk.injEq, reduceCtorEq] at h
  all_goals try exact Or.inl h.2.symm
  · exact Or.inr (Or.inr ⟨cmd.workload, by assumption, h.2.symm⟩)
  · exact Or.inr (Or.inl h.2.symm)

/-- Shared helper: a background-start command whose workload name is not
registered returns `-EINVAL` naming the identifier and mutates nothing. -/
lemma start_invalid_aux (env : Env) (s : Sys) (w k : String)
    (h : w ∉ WORKLOADS) :
    handle_command env ⟨"mgr self-test background start", w, k⟩ s =
      .ok (⟨-EINVAL, "", "Workload not found '" ++ w ++ "'"⟩, []) ∧
    ctrlApply env ⟨"mgr self-test background start", w, k⟩ s = s := by
  have h1 : handle_command env ⟨"mgr self-test background start", w, k⟩ s =
      .ok (⟨-EINVAL, "", "Workload not found '" ++ w ++ "'"⟩, []) := by
    unfold handle_command
    simp [h]
  refine ⟨h1, ?_⟩
  unfold ctrlApply
  rw [h1]
  rfl

/-- C3: for every workload name not in the registry
`{command_spam, throw_exception}`, `StartBackground` returns an
`InvalidArgument` (`-EINVAL`) error whose message names the offending
identifier, and leaves `DesiredWorkload` and `WakeSignal` unchanged. -/
theorem start_unknown_workload_einval (env : Env) (s : Sys) (w k : String)
    (h : w ∉ WORKLOADS) :
    handle_command env ⟨"mgr self-test background start", w, k⟩ s =
      .ok (⟨-EINVAL, "", "Workload not found '" ++ w ++ "'"⟩, []) ∧
    ctrlApply env ⟨"mgr self-test background start", w, k⟩ s = s :=
  start_invalid_aux env s w k h

/-- Witness for C3 at the concrete unregistered name `"bogus"`. -/
theorem start_unknown_workload_einval_witness :
    handle_command envOk ⟨"mgr self-test background start", "bogus", ""⟩ initSys =
      .ok (⟨-EINVAL, "", "Workload not found '" ++ "bogus" ++ "'"⟩, []) ∧
    ctrlApply envOk ⟨"mgr self-test background start", "bogus", ""⟩ initSys = initSys :=
  start_unknown_workload_einval envOk initSys "bogus" "" (by decide)

/-- Shared helper: `StopBackground` with nothing (truthy) running is a
successful no-op. -/
lemma stop_noop_aux (env : Env) (s : Sys) (aw ak : String)
    (h : pyTruthy s.workload = false) :
    handle_command env ⟨"mgr self-test background stop", aw, ak⟩ s =
      .ok (⟨0, "", "No background workload was running"⟩, []) ∧
    ctrlApply env ⟨"mgr self-test background stop", aw, ak⟩ s = s := by
  have h1 : handle_command env ⟨"mgr self-test background stop", aw, ak⟩ s =
      .ok (⟨0, "", "No background workload was running"⟩, []) := by
    unfold handle_command
    simp [h]
  refine ⟨h1, ?_⟩
  unfold ctrlApply
  rw [h1]
  rfl

/-- Shared helper: `StopBackground` with a (truthy) running workload
clears it, signals, and names it. -/
lemma stop_running_aux (env : Env) (s : Sys) (aw ak w : String)
    (hw : s.workload = some w) (hne : w ≠ "") :
    handle_command env ⟨"mgr self-test background stop", aw, ak⟩ s =
      .ok (⟨0, "", "Stopping background workload `" ++ w ++ "`"⟩,
        [.writeWorkload none, .signalEvent]) ∧
    ctrlApply env ⟨"mgr self-test background stop", aw, ak⟩ s =
      { s with workload := none, event := true } := by
  have htruthy : pyTruthy s.workload = true := by
    rw [hw]; simp [pyTruthy, hne]
  have h1 : handle_command env ⟨"mgr self-test background stop", aw, ak⟩ s =
      .ok (⟨0, "", "Stopping background workload `" ++ w ++ "`"⟩,
        [.writeWorkload none, .signalEvent]) := by
    unfold handle_command
    rw [hw]
    simp [pyTruthy, pyStr, hne]
  refine ⟨h1, ?_⟩
  unfold ctrlApply
  rw [h1]
  rfl

/-- C4: `StopBackground` always succeeds (retcode 0) whatever the prior
state; with a running workload it writes `None`, sets the signal and
names the stopped workload; with nothing running it changes no state and
reports a no-op; a second stop right after a first one also succeeds
with retcode 0 and changes no state. -/
theorem stop_idempotent (env : Env) (s : Sys) (aw ak : String) :
    (∀ w, s.workload = some w → w ≠ "" →
      handle_command env ⟨"mgr self-test background stop", aw, ak⟩ s =
        .ok (⟨0, "", "Stopping background workload `" ++ w ++ "`"⟩,
          [.writeWorkload none, .signalEvent]) ∧
      ctrlApply env ⟨"mgr self-test background stop", aw, ak⟩ s =
        { s with workload := none, event := true }) ∧
    (pyTruthy s.workload = false →
      handle_command env ⟨"mgr self-test background stop", aw, ak⟩ s =
        .ok (⟨0, "", "No background workload was running"⟩, []) ∧
      ctrlApply env ⟨"mgr self-test background stop", aw, ak⟩ s = s) ∧
    (∃ r tr, handle_command env ⟨"mgr self-test background stop", aw, ak⟩ s =
        .ok (r, tr) ∧ r.retcode = 0) ∧
    (∃ r2, handle_command env ⟨"mgr self-test background stop", aw, ak⟩
        (ctrlApply env ⟨"mgr self-test background stop", aw, ak⟩ s) =
          .ok (r2, []) ∧ r2.retcode = 0) ∧
    ctrlApply env ⟨"mgr self-test background stop", aw, ak⟩
        (ctrlApply env ⟨"mgr self-test background stop", aw, ak⟩ s) =
      ctrlApply env ⟨"mgr self-test background stop", aw, ak⟩ s := by
  by_cases ht : pyTruthy s.workload = true
  · obtain ⟨w, hw, hne⟩ : ∃ w, s.workload = some w ∧ w ≠ "" := by
      rcases hsw : s.workload with - | w
      · rw [hsw] at ht; exact absurd ht (by simp [pyTruthy])
      · refine ⟨w, rfl, ?_⟩
        intro he
        subst he
        rw [hsw] at ht
        exact absurd ht (by simp [pyTruthy])
    have hfirst := stop_running_aux env s aw ak w hw hne
    have hsecond := stop_noop_aux env { s with workload := none, event := true }
      aw ak (by simp [pyTruthy])
    refine ⟨?_, ?_, ?_, ?_, ?_⟩
    · intro w2 hw2 hne2
      rw [hw] at hw2
      obtain rfl := Option.some_injective _ hw2.symm
      exact hfirst
    · intro hc
      rw [ht] at hc
      exact absurd hc (by simp)
    · exact ⟨_, _, hfirst.1, rfl⟩
    · rw [hfirst.2]
      exact ⟨_, hsecond.1, rfl⟩
    · rw [hfirst.2]
      exact hsecond.2
  · have hf : pyTruthy s.workload = false := by
      cases hv : pyTruthy s.workload
      · rfl
      · exact absurd hv ht
    have hfirst := stop_noop_aux env s aw ak hf
    refine ⟨?_, fun _ => hfirst, ⟨_, _, hfirst.1, rfl⟩, ?_, ?_⟩
    · intro w2 hw2 hne2
      exfalso
      apply ht
      rw [hw2]
      unfold pyTruthy
      simp [hne2]
    · rw [hfirst.2]
      exact ⟨_, hfirst.1, rfl⟩
    · rw [hfirst.2]
      exact hfirst.2

/-- Witness for C4: stopping a running `command_spam` workload, then
stopping again. -/
theorem stop_idempotent_witness :
    handle_command envOk ⟨"mgr self-test background stop", "", ""⟩
        { initSys with workload := some "command_spam", event := false } =
      .ok (⟨0, "", "Stopping background workload `" ++ "command_spam" ++ "`"⟩,
        [.writeWorkload none, .signalEvent]) ∧
    ctrlApply envOk ⟨"mgr self-test background stop", "", ""⟩
        { initSys with workload := some "command_spam", event := false } =
      { { initSys with workload := some "command_spam", event := false } with
          workload := none, event := true } :=
  (stop_idempotent envOk
      { initSys with workload := some "command_spam", event := false } "" "").1
    "command_spam" rfl (by decide)

/-- C5: every mutation trace of the control surface is either empty or
exactly a write to `DesiredWorkload` immediately followed by setting
`WakeSignal`; `shutdown` performs exactly that pair as well, and such a
pair applied to any state writes the value and sets the signal. -/
theorem write_before_signal (env : Env) (cmd : Command) (s : Sys) :
    (∀ r tr, handle_command env cmd s = .ok (r, tr) →
      tr = [] ∨ ∃ v, tr = [.writeWorkload v, .signalEvent]) ∧
    shutdownTrace = [.writeWorkload (some SHUTDOWN), .signalEvent] ∧
    (∀ v (t : Sys),
      [MutAct.writeWorkload v, MutAct.signalEvent].foldl applyMut t =
        { t with workload := v, event := true }) := by
  refine ⟨?_, rfl, fun v t => rfl⟩
  intro r tr h
  rcases handle_command_trace_cases env cmd s r tr h with h1 | h1 | ⟨w, -, h1⟩
  · exact Or.inl h1
  · exact Or.inr ⟨none, h1⟩
  · exact Or.inr ⟨some w, h1⟩

/-- Witness for C5 at a concrete successful `StartBackground`. -/
theorem write_before_signal_witness :
    ([MutAct.writeWorkload (some "command_spam"), MutAct.signalEvent] = [] ∨
      ∃ v, [MutAct.writeWorkload (some "command_spam"), MutAct.signalEvent] =
        [MutAct.writeWorkload v, MutAct.signalEvent]) :=
  (write_before_signal envOk
      ⟨"mgr self-test background start", "command_spam", ""⟩ initSys).1
    ⟨0, "", "Running `" ++ "command_spam" ++ "` in background"⟩
    [MutAct.writeWorkload (some "command_spam"), MutAct.signalEvent] rfl

/-- C9: any command whose
prefix is none of the six recognized ones returns `-EINVAL` with a
message naming the prefix and changes no state. -/
theorem unknown_prefix_einval (env : Env) (s : Sys) (cmd : Command)
    (h : cmd.cmdPrefix ∉ (["mgr self-test run",
      "mgr self-test background start", "mgr self-test background stop",
      "mgr self-test config get", "mgr self-test config get_localized",
      "mgr self-test remote"] : List String)) :
    handle_command env cmd s =
      .ok (⟨-EINVAL, "", "Command not found '" ++ cmd.cmdPrefix ++ "'"⟩, []) ∧
    ctrlApply env cmd s = s := by
  simp only [List.mem_cons, List.not_mem_nil, or_false, not_or] at h
  obtain ⟨h1, h2, h3, h4, h5, h6⟩ := h
  have hh : handle_command env cmd s =
      .ok (⟨-EINVAL, "", "Command not found '" ++ cmd.cmdPrefix ++ "'"⟩, []) := by
    unfold handle_command
    simp [h1, h2, h3, h4, h5, h6]
  refine ⟨hh, ?_⟩
  unfold ctrlApply
  rw [hh]
  rfl

/-- Witness for C9 at the concrete unknown prefix `"mgr osd status"`. -/
theorem unknown_prefix_einval_witness :
    handle_command envOk ⟨"mgr osd status", "", ""⟩ initSys =
      .ok (⟨-EINVAL, "", "Command not found '" ++ "mgr osd status" ++ "'"⟩, []) ∧
    ctrlApply envOk ⟨"mgr osd status", "", ""⟩ initSys = initSys :=
  unknown_prefix_einval envOk initSys ⟨"mgr osd status", "", ""⟩ (by decide)

/-- C10: no control-surface command can make `DesiredWorkload` become
`Shutdown` if it was not already; asking to start the workload named
`"shutdown"` is rejected with `-EINVAL` and no state change; only the
internal `shutdown()` hook writes the `Shutdown` value. -/
theorem shutdown_unreachable_from_control (env : Env) (s : Sys) (ak : String) :
    (∀ cmd r tr, handle_command env cmd s = .ok (r, tr) →
      (ctrlApply env cmd s).workload = some SHUTDOWN →
      s.workload = some SHUTDOWN) ∧
    (handle_command env ⟨"mgr self-test background start", SHUTDOWN, ak⟩ s =
      .ok (⟨-EINVAL, "", "Workload not found '" ++ SHUTDOWN ++ "'"⟩, []) ∧
     ctrlApply env ⟨"mgr self-test background start", SHUTDOWN, ak⟩ s = s) ∧
    shutdown s = { s with workload := some SHUTDOWN, event := true } := by
  have hb := start_invalid_aux env s SHUTDOWN ak
    (by decide : SHUTDOWN ∉ WORKLOADS)
  refine ⟨?_, hb, rfl⟩
  intro cmd r tr h hafter
  have hca : ctrlApply env cmd s = tr.foldl applyMut s := by
    unfold ctrlApply; rw [h]
  rcases handle_command_trace_cases env cmd s r tr h with h1 | h1 | ⟨w, hmem, h1⟩
  · subst h1; rw [hca] at hafter; exact hafter
  · subst h1
    rw [hca] at hafter
    simp [applyMut] at hafter
  · subst h1
    rw [hca] at hafter
    simp only [List.foldl_cons, List.foldl_nil, applyMut] at hafter
    have hws : w = SHUTDOWN := by simpa using hafter
    subst hws
    exact absurd hmem (by decide)

/-- Witness for C10: starting `"shutdown"` from the initial state is
rejected, and a realized `StartBackground` of `command_spam` does not
yield the `Shutdown` value. -/
theorem shutdown_unreachable_from_control_witness :
    (handle_command envOk ⟨"mgr self-test background start", SHUTDOWN, ""⟩ initSys =
      .ok (⟨-EINVAL, "", "Workload not found '" ++ SHUTDOWN ++ "'"⟩, []) ∧
     ctrlApply envOk ⟨"mgr self-test background start", SHUTDOWN, ""⟩ initSys = initSys) ∧
    shutdown initSys = { initSys with workload := some SHUTDOWN, event := true } :=
  ⟨(shutdown_unreachable_from_control envOk initSys "").2.1,
   (shutdown_unreachable_from_control envOk initSys "").2.2⟩

/-- C8 (amended): the two config commands are pure pass-through reads
returning the Python stringification of whatever the collaborator
returns (a present value is returned as-is, Python `None` stringifies to
`"None"`), and they never touch `DesiredWorkload` or `WakeSignal`. -/
theorem config_get_passthrough (env : Env) (s : Sys) (aw key : String) :
    handle_command env ⟨"mgr self-test config get", aw, key⟩ s =
      .ok (⟨0, pyStr (env.getConfig key), ""⟩, []) ∧
    ctrlApply env ⟨"mgr self-test config get", aw, key⟩ s = s ∧
    handle_command env ⟨"mgr self-test config get_localized", aw, key⟩ s =
      .ok (⟨0, pyStr (env.getLocalizedConfig key), ""⟩, []) ∧
    ctrlApply env ⟨"mgr self-test config get_localized", aw, key⟩ s = s ∧
    (∀ v, pyStr (some v) = v) ∧ pyStr none = "None" := by
  have h1 : handle_command env ⟨"mgr self-test config get", aw, key⟩ s =
      .ok (⟨0, pyStr (env.getConfig key), ""⟩, []) := by
    unfold handle_command; simp
  have h2 : handle_command env ⟨"mgr self-test config get_localized", aw, key⟩ s =
      .ok (⟨0, pyStr (env.getLocalizedConfig key), ""⟩, []) := by
    unfold handle_command; simp
  exact ⟨h1, by unfold ctrlApply; rw [h1]; rfl, h2,
    by unfold ctrlApply; rw [h2]; rfl, fun v => rfl, rfl⟩

/-- Environment in which every config key is absent (the collaborator
returns Python `None`). -/
def envAbsent : Env := { envOk with getConfig := fun _ => none }

/-- Counterexample to C8 as stated: with the key absent the command
returns the string `"None"`, which is not an empty result. -/
theorem config_get_absent_not_empty :
    handle_command envAbsent ⟨"mgr self-test config get", "", "testkey"⟩ initSys =
      .ok (⟨0, "None", ""⟩, []) ∧ ("None" : String) ≠ "" :=
  ⟨rfl, by decide⟩

/-- C1: one iteration of `serve` implements exactly the transition
table: `CommandSpam` enters the command-spam body, `Shutdown` exits the
loop (and the exited thread takes no further steps under any
interleaving: status and submitted-command count are frozen),
`ThrowException` crashes the thread uncaught (same freezing, so no
workload runs afterwards), and `None` blocks on the signal, clearing it
upon wake and re-evaluating from the top. -/
theorem serve_transition_table (env : Env) (s : Sys) :
    (s.status = .running → s.loc = .top →
      (s.workload = some WORKLOAD_COMMAND_SPAM →
        serve_step s = { s with loc := .spamCheck }) ∧
      (s.workload = some SHUTDOWN →
        serve_step s = { s with status := .exited }) ∧
      (s.workload = some WORKLOAD_THROW_EXCEPTION →
        serve_step s = { s with status := .crashed }) ∧
      (s.workload = none → s.event = true →
        serve_step s = { s with event := false }) ∧
      (s.workload = none → s.event = false → serve_step s = s)) ∧
    (s.status ≠ .running → serve_step s = s) ∧
    (∀ acts, s.status ≠ .running →
      (sysRun env s acts).status = s.status ∧
      (sysRun env s acts).spamCount = s.spamCount) := by
  obtain ⟨w, ev, loc, st, sc, fl⟩ := s
  refine ⟨?_, ?_, ?_⟩
  · intro hst hloc
    cases hst
    cases hloc
    refine ⟨?_, ?_, ?_, ?_, ?_⟩ <;> intro hw
    · cases hw; rfl
    · cases hw; rfl
    · cases hw; rfl
    · intro hev; cases hw; cases hev; rfl
    · intro hev; cases hw; cases hev; rfl
  · intro h
    exact serve_step_frozen _ h
  · intro acts h
    exact sysRun_frozen env acts _ h

/-- Witness for C1: the four dispatch cases at concrete states, and the
frozen counters of a crashed coordinator under a concrete interleaving. -/
theorem serve_transition_table_witness :
    serve_step ⟨some "command_spam", false, .top, .running, 0, 0⟩ =
      { (⟨some "command_spam", false, .top, .running, 0, 0⟩ : Sys) with
          loc := .spamCheck } ∧
    serve_step ⟨some "shutdown", false, .top, .running, 0, 0⟩ =
      { (⟨some "shutdown", false, .top, .running, 0, 0⟩ : Sys) with
          status := .exited } ∧
    serve_step ⟨some "throw_exception", false, .top, .running, 0, 0⟩ =
      { (⟨some "throw_exception", false, .top, .running, 0, 0⟩ : Sys) with
          status := .crashed } ∧
    serve_step ⟨none, true, .top, .running, 0, 0⟩ =
      { (⟨none, true, .top, .running, 0, 0⟩ : Sys) with event := false } ∧
    (sysRun envOk ⟨none, false, .top, .crashed, 5, 0⟩
        [.coord, .ctrl ⟨"mgr self-test background start", "command_spam", ""⟩,
          .coord]).status = .crashed ∧
    (sysRun envOk ⟨none, false, .top, .crashed, 5, 0⟩
        [.coord, .ctrl ⟨"mgr self-test background start", "command_spam", ""⟩,
          .coord]).spamCount = 5 :=
  ⟨((serve_transition_table envOk ⟨some "command_spam", false, .top, .running, 0, 0⟩).1
      rfl rfl).1 rfl,
   ((serve_transition_table envOk ⟨some "shutdown", false, .top, .running, 0, 0⟩).1
      rfl rfl).2.1 rfl,
   ((serve_transition_table envOk ⟨some "throw_exception", false, .top, .running, 0, 0⟩).1
      rfl rfl).2.2.1 rfl,
   ((serve_transition_table envOk ⟨none, true, .top, .running, 0, 0⟩).1
      rfl rfl).2.2.2.1 rfl rfl,
   ((serve_transition_table envOk ⟨none, false, .top, .crashed, 5, 0⟩).2.2
      [.coord, .ctrl ⟨"mgr self-test background start", "command_spam", ""⟩, .coord]
      (by decide)).1,
   ((serve_transition_table envOk ⟨none, false, .top, .crashed, 5, 0⟩).2.2
      [.coord, .ctrl ⟨"mgr self-test background start", "command_spam", ""⟩, .coord]
      (by decide)).2⟩

/-- C2: the command-spam body tests the stop condition before every
iteration (a set signal makes it exit, clearing the signal on the way
out, with no submission); a clear signal makes it submit exactly one
command and move to the synchronous wait; the wait returns to the loop
test without submitting; once the stop condition holds, the body is back
at the top of `serve` with the signal cleared and no further submission
within at most two steps; and under every interleaving at most one
command is in flight. -/
theorem command_spam_body_spec (env : Env) (s : Sys) :
    (s.status = .running → s.loc = .spamCheck → s.event = true →
      serve_step s = { s with event := false, loc := .top }) ∧
    (s.status = .running → s.loc = .spamCheck → s.event = false →
      serve_step s =
        { s with spamCount := s.spamCount + 1, inflight := s.inflight + 1, loc := .spamAwait }) ∧
    (s.status = .running → s.loc = .spamAwait →
      serve_step s = { s with inflight := s.inflight - 1, loc := .spamCheck }) ∧
    (s.status = .running → s.loc = .spamAwait → s.event = true →
      serve_step (serve_step s) =
        { s with inflight := s.inflight - 1, event := false, loc := .top }) ∧
    (∀ acts, spamInv s →
      spamInv (sysRun env s acts) ∧ (sysRun env s acts).inflight ≤ 1) := by
  obtain ⟨w, ev, loc, st, sc, fl⟩ := s
  refine ⟨?_, ?_, ?_, ?_, ?_⟩
  · intro hst hloc hev
    cases hst; cases hloc; cases hev
    rfl
  · intro hst hloc hev
    cases hst; cases hloc; cases hev
    rfl
  · intro hst hloc
    cases hst; cases hloc
    rfl
  · intro hst hloc hev
    cases hst; cases hloc; cases hev
    rfl
  · intro acts h
    have hinv := sysRun_spamInv env acts _ h
    refine ⟨hinv, ?_⟩
    unfold spamInv at hinv
    rw [hinv]
    split <;> omega

/-- Witness for C2: a concrete run that enters the body, submits one
command, gets stopped, and exits with the signal cleared. -/
theorem command_spam_body_spec_witness :
    serve_step ⟨some "command_spam", false, .spamCheck, .running, 0, 0⟩ =
      { (⟨some "command_spam", false, .spamCheck, .running, 0, 0⟩ : Sys) with
          spamCount := 0 + 1, inflight := 0 + 1, loc := .spamAwait } ∧
    serve_step (serve_step ⟨none, true, .spamAwait, .running, 1, 1⟩) =
      { (⟨none, true, .spamAwait, .running, 1, 1⟩ : Sys) with
          inflight := 1 - 1, event := false, loc := .top } ∧
    spamInv (sysRun envOk initSys
      [.ctrl ⟨"mgr self-test background start", "command_spam", ""⟩,
        .coord, .coord, .coord, .ctrl ⟨"mgr self-test background stop", "", ""⟩,
        .coord, .coord]) ∧
    (sysRun envOk initSys
      [.ctrl ⟨"mgr self-test background start", "command_spam", ""⟩,
        .coord, .coord, .coord, .ctrl ⟨"mgr self-test background stop", "", ""⟩,
        .coord, .coord]).inflight ≤ 1 :=
  ⟨(command_spam_body_spec envOk
      ⟨some "command_spam", false, .spamCheck, .running, 0, 0⟩).2.1 rfl rfl rfl,
   (command_spam_body_spec envOk
      ⟨none, true, .spamAwait, .running, 1, 1⟩).2.2.2.1 rfl rfl rfl,
   ((command_spam_body_spec envOk initSys).2.2.2.2
      [.ctrl ⟨"mgr self-test background start", "command_spam", ""⟩,
        .coord, .coord, .coord, .ctrl ⟨"mgr self-test background stop", "", ""⟩,
        .coord, .coord] (by decide)).1,
   ((command_spam_body_spec envOk initSys).2.2.2.2
      [.ctrl ⟨"mgr self-test background start", "command_spam", ""⟩,
        .coord, .coord, .coord, .ctrl ⟨"mgr self-test background stop", "", ""⟩,
        .coord, .coord] (by decide)).2⟩

/-- Environment whose config collaborator does not round-trip: the first
`assert` of `_self_test_config` fails. -/
def envBadConfig : Env := { envOk with configAfterSet := fun _ _ => none }

/-- Counterexample to C6 as stated: a failing assertion in the self-test
is not converted into an error result; it escapes `handle_command` as an
uncaught `AssertionError`. -/
theorem self_test_failure_escapes :
    handle_command envBadConfig ⟨"mgr self-test run", "", ""⟩ initSys =
      .error .assertionError :=
  rfl

/-- C6 (amended): `RunSelfTest` returns the success result (and touches
no state) exactly when the self-test sequence passes; any exception the
sequence raises propagates uncaught to the caller (state untouched); in
particular a failed config round-trip assert surfaces as a bare
`AssertionError` (with no descriptive text) rather than an error
result. -/
theorem self_test_run_semantics (env : Env) (s : Sys) (aw ak : String) :
    (_self_test env = .ok () →
      handle_command env ⟨"mgr self-test run", aw, ak⟩ s =
        .ok (⟨0, "", "Self-test succeeded"⟩, []) ∧
      ctrlApply env ⟨"mgr self-test run", aw, ak⟩ s = s) ∧
    (∀ e, _self_test env = .error e →
      handle_command env ⟨"mgr self-test run", aw, ak⟩ s = .error e ∧
      ctrlApply env ⟨"mgr self-test run", aw, ak⟩ s = s) ∧
    (env.selfTestOsdmap = .ok () → env.selfTestGetters = .ok () →
      env.configAfterSet "testkey" "testvalue" ≠ some "testvalue" →
      _self_test env = .error .assertionError) := by
  refine ⟨?_, ?_, ?_⟩
  · intro h
    have h1 : handle_command env ⟨"mgr self-test run", aw, ak⟩ s =
        .ok (⟨0, "", "Self-test succeeded"⟩, []) := by
      unfold handle_command
      rw [h]
      rfl
    exact ⟨h1, by unfold ctrlApply; rw [h1]; rfl⟩
  · intro e h
    have h1 : handle_command env ⟨"mgr self-test run", aw, ak⟩ s = .error e := by
      unfold handle_command
      rw [h]
      rfl
    exact ⟨h1, by unfold ctrlApply; rw [h1]⟩
  · intro h1 h2 h3
    unfold _self_test _self_test_config
    rw [h1, h2]
    unfold seqE pyAssert
    have : (env.configAfterSet "testkey" "testvalue" == some "testvalue") = false := by
      simpa using h3
    rw [this]
    rfl

/-- Witness for C6 (amended): a passing run under `envOk`, and the
escaping `AssertionError` under `envBadConfig`. -/
theorem self_test_run_semantics_witness :
    (handle_command envOk ⟨"mgr self-test run", "", ""⟩ initSys =
      .ok (⟨0, "", "Self-test succeeded"⟩, []) ∧
     ctrlApply envOk ⟨"mgr self-test run", "", ""⟩ initSys = initSys) ∧
    _self_test envBadConfig = .error .assertionError :=
  ⟨(self_test_run_semantics envOk initSys "" "").1 rfl,
   (self_test_run_semantics envBadConfig initSys "" "").2.2 rfl rfl (by decide)⟩

/-- The guard `expectExc` succeeds exactly when the call raised exactly
the expected exception kind. -/
lemma expectExc_ok_iff (r : Except PyExc Unit) (want : PyExc) (msg : String) :
    expectExc r want msg = .ok () ↔ r = .error want := by
  cases r with
  | ok u => cases u; simp [expectExc]
  | error e =>
    by_cases h : e = want
    · subst h; simp [expectExc]
    · simp [expectExc, h]

/-- Sequencing `seqE` succeeds exactly when both statements do. -/
lemma seqE_ok_iff (a b : Except PyExc Unit) :
    seqE a b = .ok () ↔ a = .ok () ∧ b = .ok () := by
  cases a with
  | ok u => cases u; simp [seqE]
  | error e => simp [seqE]

/-- C7: `_test_remote_calls` succeeds exactly when the valid call
returns, the disabled-module call and the nonexistent-module call raise
`ImportError` (the module-unavailable kind), and the missing-method call
raises `NameError` (a distinct kind); each expected failure that does
not occur turns into a `RuntimeError` self-test failure raised to the
caller, with the source's message. -/
theorem remote_calls_spec (env : Env) :
    (_test_remote_calls env = .ok () ↔
      (env.remoteValid = .ok () ∧ env.remoteDisabled = .error .importError ∧
       env.remoteNonexistent = .error .importError ∧
       env.remoteMissingMethod = .error .nameError)) ∧
    (env.remoteValid = .ok () → env.remoteDisabled = .ok () →
      _test_remote_calls env =
        .error (.runtimeError "ImportError not raised for disabled module")) ∧
    (env.remoteValid = .ok () → env.remoteDisabled = .error .importError →
      env.remoteNonexistent = .ok () →
      _test_remote_calls env =
        .error (.runtimeError "ImportError not raised for nonexistent module")) ∧
    (env.remoteValid = .ok () → env.remoteDisabled = .error .importError →
      env.remoteNonexistent = .error .importError →
      env.remoteMissingMethod = .ok () →
      _test_remote_calls env = .error (.runtimeError "KeyError not raised")) ∧
    PyExc.importError ≠ PyExc.nameError := by
  refine ⟨?_, ?_, ?_, ?_, by decide⟩
  · unfold _test_remote_calls
    rw [seqE_ok_iff, seqE_ok_iff, seqE_ok_iff,
      expectExc_ok_iff, expectExc_ok_iff, expectExc_ok_iff]
  · intro h1 h2
    unfold _test_remote_calls
    rw [h1, h2]
    rfl
  · intro h1 h2 h3
    unfold _test_remote_calls
    rw [h1, h2, h3]
    rfl
  · intro h1 h2 h3 h4
    unfold _test_remote_calls
    rw [h1, h2, h3, h4]
    rfl

/-- Witness for C7: the well-behaved environment passes, and an
environment whose disabled-module call wrongly succeeds yields the
`RuntimeError` self-test failure. -/
theorem remote_calls_spec_witness :
    _test_remote_calls envOk = .ok () ∧
    _test_remote_calls { envOk with remoteDisabled := .ok () } =
      .error (.runtimeError "ImportError not raised for disabled module") :=
  ⟨(remote_calls_spec envOk).1.mpr ⟨rfl, rfl, rfl, rfl⟩,
   (remote_calls_spec { envOk with remoteDisabled := .ok () }).2.1 rfl rfl⟩

end Selftest
